import Mathlib

/-!
Verification of the Arduino RoboLab code-generation core
(`app/core/generator/codegen.py`, `app/core/validator/validator.py`,
`app/core/ast/ast_nodes.py`, fallback registry from
`app/core/blocks_loader.py`) against its natural-language specification.

The Python code is shallowly embedded: every definition below transcribes
the corresponding Python function; mutable generator/validator state is
threaded explicitly.  Recursive tree walks are driven by an explicit fuel
parameter standing in for Python's recursion limit (a genuine Python run
raises RecursionError past ~1000 nested frames; here exhausted fuel surfaces
as a distinguished error / an unchanged state).  All definitions are
executable so that theorems about concrete programs evaluate by `decide`.
-/

/-! ### Python string primitives used by the source -/

/-- Python whitespace characters relevant to `str.strip()`. -/
def isPyWS (c : Char) : Bool :=
  c = ' ' ∨ c = '\t' ∨ c = '\n' ∨ c = '\r' ∨ c = '\x0b' ∨ c = '\x0c'

def dropWhileWS : List Char → List Char
  | [] => []
  | c :: rest => if isPyWS c then dropWhileWS rest else c :: rest

/-- Python `str.strip()` (no argument): trim whitespace from both ends. -/
def pyStrip (s : String) : String :=
  ⟨((dropWhileWS s.data.reverse).reverse |> dropWhileWS)⟩

/-- Is `pat` a prefix of `s`? -/
def isPrefixL : List Char → List Char → Bool
  | [], _ => true
  | _ :: _, [] => false
  | p :: ps, c :: cs => p = c ∧ isPrefixL ps cs

/-- Python `str.startswith`. -/
def pyStartsWith (s pat : String) : Bool := isPrefixL pat.data s.data

/-- Core of Python `str.replace`: scan left to right, replace each
non-overlapping occurrence of `pat`, never rescanning replacement text.
Fuel is bounded by the length of the scanned text. -/
def pyReplaceAux (pat rep : List Char) : Nat → List Char → List Char
  | 0, s => s
  | _+1, [] => []
  | fuel+1, c :: rest =>
    if pat ≠ [] ∧ isPrefixL pat (c :: rest) then
      rep ++ pyReplaceAux pat rep fuel ((c :: rest).drop pat.length)
    else
      c :: pyReplaceAux pat rep fuel rest

/-- Python `s.replace(pat, rep)` (for non-empty `pat`, which is the only
way the source uses it). -/
def pyReplace (s pat rep : String) : String :=
  ⟨pyReplaceAux pat.data rep.data s.data.length s.data⟩

def splitlinesAux : List Char → List Char → List (List Char)
  | [], acc => [acc.reverse]
  | '\n' :: rest, acc => acc.reverse :: splitlinesAux rest []
  | c :: rest, acc => splitlinesAux rest (c :: acc)

/-- Python `str.splitlines()` restricted to `'\n'` boundaries (the only
line separator occurring in the repository's templates): `""` gives `[]`,
and a trailing newline does not produce a trailing empty line. -/
def splitlines (s : String) : List String :=
  match s.data with
  | [] => []
  | l =>
    let parts := (splitlinesAux l []).map (fun cs => (⟨cs⟩ : String))
    if l.getLast? = some '\n' then parts.dropLast else parts

/-- Python `"\n".join(lines)`. -/
def joinNL : List String → String
  | [] => ""
  | x :: xs => xs.foldl (fun acc l => acc ++ "\n" ++ l) x

/-- Insertion-ordered dictionary lookup (`dict.get`). -/
def alookup {α : Type} : List (String × α) → String → Option α
  | [], _ => none
  | (k, v) :: rest, key => if k = key then some v else alookup rest key

/-- Insertion-ordered dictionary assignment: overwrite in place if the key
exists, else append (CPython `dict` semantics). -/
def dictSet {α : Type} (m : List (String × α)) (k : String) (v : α) :
    List (String × α) :=
  if m.any (fun p => p.1 = k) then
    m.map (fun p => if p.1 = k then (k, v) else p)
  else m ++ [(k, v)]

/-- Parse an unsigned decimal digit run with Python 3 underscore rules
(`int("1_2") = 12`, leading/trailing/double underscores fail). -/
def parseDigitsGo : List Char → Bool → Nat → Option Nat
  | [], seenDigit, acc => if seenDigit then some acc else none
  | c :: rest, seenDigit, acc =>
    if c.isDigit then parseDigitsGo rest true (acc * 10 + (c.toNat - 48))
    else if c = '_' then
      match rest with
      | d :: _ => if seenDigit ∧ d.isDigit then parseDigitsGo rest false acc else none
      | [] => none
    else none

/-- Python `int(s)` for a string argument: strip whitespace, optional
sign, decimal digits. `none` models `ValueError`. -/
def pyIntOfString (s : String) : Option Int :=
  match (pyStrip s).data with
  | '+' :: rest => (parseDigitsGo rest false 0).map Int.ofNat
  | '-' :: rest => (parseDigitsGo rest false 0).map (fun n => -(Int.ofNat n : Int))
  | l => (parseDigitsGo l false 0).map Int.ofNat

/-! ### Data model (`app/core/ast/ast_nodes.py`) -/

/-- `Section` enumeration of output regions of the sketch. (`Sect` because
`section` is a Lean keyword.) -/
inductive Sect where
  | includes
  | globals
  | setup
  | loop
  | functions
deriving DecidableEq

/-- `Section.value` strings. -/
def Sect.value : Sect → String
  | .includes => "includes"
  | .globals => "globals"
  | .setup => "setup"
  | .loop => "loop"
  | .functions => "functions"

/-- Runtime parameter / context values flowing through the generator and
validator: Python ints and strings (a missing value is `Option.none` at
the use sites, mirroring Python `None`). -/
inductive Value where
  | vInt (n : Int)
  | vStr (s : String)
deriving DecidableEq

/-- Python `str(value)` on a `Value`. -/
def pyStr : Value → String
  | .vInt n => toString n
  | .vStr s => s

/-- Python `str(value)` where `value` may be `None`. -/
def ctxValStr : Option Value → String
  | none => "None"
  | some v => pyStr v

/-- Python `int(value)` on a `Value`; `none` models `TypeError`/`ValueError`. -/
def pyInt : Value → Option Int
  | .vInt n => some n
  | .vStr s => pyIntOfString s

/-- `BlockParameter`: (name, declared type, default value). -/
structure BlockParameter where
  name : String
  type : String
  default : Option Value := none
deriving DecidableEq

/-- `BlockContainerSpec`: named child slot with a target section and an
optional template placeholder. (`sect` stands for the Python field
`section`, a Lean keyword.) -/
structure BlockContainerSpec where
  name : String
  sect : Sect
  placeholder : Option String := none
deriving DecidableEq

/-- `BlockDefinition`: immutable catalog entry. -/
structure BlockDefinition where
  block_id : String
  name : String
  category : String
  kind : String
  sect : Option Sect := none
  template : Option String := none
  returns : Option String := none
  parameters : List BlockParameter := []
  setup_snippets : List String := []
  globals_snippets : List String := []
  includes : List String := []
  functions_snippets : List String := []
  containers : List BlockContainerSpec := []
deriving DecidableEq

/-- `BlockInstance`: a placed block with parameter values and named
ordered child lists. -/
inductive BlockInstance where
  | mk (instance_id : String) (definition_id : String)
      (values : List (String × Value))
      (children : List (String × List BlockInstance))

def BlockInstance.instance_id : BlockInstance → String
  | .mk i _ _ _ => i

def BlockInstance.definition_id : BlockInstance → String
  | .mk _ d _ _ => d

def BlockInstance.values : BlockInstance → List (String × Value)
  | .mk _ _ v _ => v

def BlockInstance.children : BlockInstance → List (String × List BlockInstance)
  | .mk _ _ _ c => c

/-- Python `block.children.get(name, [])`. -/
def childrenGet (children : List (String × List BlockInstance)) (name : String) :
    List BlockInstance :=
  (alookup children name).getD []

/-- `ProgramNode`: whole-program AST. -/
structure ProgramNode where
  board_id : String
  root : Option BlockInstance := none
  metadata : List (String × String) := []

/-- `BlockRegistry` after construction: the `_definitions` dict, keys
unique (CPython dict modelled as an insertion-ordered association list). -/
def Registry : Type := List (String × BlockDefinition)

/-- `BlockRegistry.get`, with `none` modelling the raised `KeyError`. -/
def regGet (reg : Registry) (block_id : String) : Option BlockDefinition :=
  alookup reg block_id

structure BoardPinCapabilities where
  digital : List Int
  pwm : List Int
  analog : List String
deriving DecidableEq

/-- `BoardProfile`. -/
structure BoardProfile where
  board_id : String
  name : String
  fqbn : String
  upload_command : String
  upload_tool : String
  upload_speed : Int
  pins : BoardPinCapabilities
deriving DecidableEq

/-! ### Code generator (`app/core/generator/codegen.py`) -/

/-- `INDENT = "  "` repeated `indent_level` times. -/
def indentRepeat : Nat → String
  | 0 => ""
  | n+1 => "  " ++ indentRepeat n

/-- `_indent_lines`: indent each non-blank line; blank lines stay blank;
a trailing newline of `text` is lost (Python `splitlines` + `join`). -/
def indentLines (text : String) (indent_level : Nat) : String :=
  joinNL ((splitlines text).map
    (fun line => if line = "" then "" else indentRepeat indent_level ++ line))

/-- `CodeGenerator._format`: empty template gives `""`; otherwise iterate
over the context entries in insertion order, each pass doing a literal
Python `str.replace` of `{key}` by `str(value)`; finally indent. -/
def genFormat (template : String) (context : List (String × Option Value))
    (indent : Nat) : String :=
  if template = "" then ""
  else
    indentLines
      (context.foldl
        (fun formatted kv =>
          pyReplace formatted ("\x7b" ++ kv.1 ++ "\x7d") (ctxValStr kv.2))
        template)
      indent

/-- `CodeGenerator._build_context`: parameter name ↦ instance value
falling back to the declared default, then `setdefault("id", instance_id)`. -/
def buildContext (block : BlockInstance) (definition : BlockDefinition) :
    List (String × Option Value) :=
  let context := definition.parameters.foldl
    (fun m p =>
      dictSet m p.name
        (match alookup block.values p.name with
         | some v => some v
         | none => p.default))
    []
  if context.any (fun p => p.1 = "id") then context
  else context ++ [("id", some (Value.vStr block.instance_id))]

/-- Python `str.format(**context)` (used for include lines and function
snippets): one pass recognising `{key}` tokens and `{{`/`}}` escapes;
`none` models the `KeyError`/`ValueError` the real call would raise.
Fuel is bounded by the text length. -/
def pyFormatAux (ctx : List (String × Option Value)) :
    Nat → List Char → Option (List Char)
  | 0, _ => none
  | _+1, [] => some []
  | fuel+1, '\x7b' :: '\x7b' :: rest => (pyFormatAux ctx fuel rest).map (fun t => '\x7b' :: t)
  | fuel+1, '\x7d' :: '\x7d' :: rest => (pyFormatAux ctx fuel rest).map (fun t => '\x7d' :: t)
  | fuel+1, '\x7b' :: rest =>
    let key := rest.takeWhile (fun c => c ≠ '\x7d')
    match rest.drop key.length with
    | '\x7d' :: rest2 =>
      match alookup ctx (⟨key⟩ : String) with
      | some v => (pyFormatAux ctx fuel rest2).map (fun t => (ctxValStr v).data ++ t)
      | none => none
    | _ => none
  | _+1, '\x7d' :: _ => none
  | fuel+1, c :: rest => (pyFormatAux ctx fuel rest).map (fun t => c :: t)

def pyFormat (s : String) (ctx : List (String × Option Value)) : Option String :=
  (pyFormatAux ctx (s.data.length + 1) s.data).map (fun l => (⟨l⟩ : String))

/-- The generator's accumulating state (created in `CodeGenerator.__init__`):
per-section `(text, origin block id)` buffers, the insertion-ordered include
de-duplication cache, and the block-id → line-numbers mapping. -/
structure GenState where
  includesBuf : List (String × Option String)
  globalsBuf : List (String × Option String)
  setupBuf : List (String × Option String)
  loopBuf : List (String × Option String)
  functionsBuf : List (String × Option String)
  include_cache : List (String × Option String)
  line_mapping : List (String × List Nat)
deriving DecidableEq

/-- Fresh state as set up by `CodeGenerator.__init__`. -/
def initGenState : GenState :=
  { includesBuf := [], globalsBuf := [], setupBuf := [], loopBuf := [],
    functionsBuf := [], include_cache := [], line_mapping := [] }

def GenState.getBuf (st : GenState) : Sect → List (String × Option String)
  | .includes => st.includesBuf
  | .globals => st.globalsBuf
  | .setup => st.setupBuf
  | .loop => st.loopBuf
  | .functions => st.functionsBuf

def GenState.pushBuf (st : GenState) (s : Sect) (entry : String × Option String) :
    GenState :=
  match s with
  | .includes => { st with includesBuf := st.includesBuf ++ [entry] }
  | .globals => { st with globalsBuf := st.globalsBuf ++ [entry] }
  | .setup => { st with setupBuf := st.setupBuf ++ [entry] }
  | .loop => { st with loopBuf := st.loopBuf ++ [entry] }
  | .functions => { st with functionsBuf := st.functionsBuf ++ [entry] }

/-- `CodeGenerator._add_line`: drop empty text, else append the tagged
line to the section buffer. -/
def addLine (st : GenState) (s : Sect) (text : String) (block_id : Option String) :
    GenState :=
  if text = "" then st else st.pushBuf s (text, block_id)

/-- `CodeGenerator._add_include`: strip, then record in the
insertion-ordered cache unless the same text is already cached. -/
def addInclude (st : GenState) (inc : String) (block_id : Option String) :
    GenState :=
  let inc := pyStrip inc
  if st.include_cache.any (fun p => p.1 = inc) then st
  else { st with include_cache := st.include_cache ++ [(inc, block_id)] }

/-- `self._line_mapping.setdefault(block_id, []).append(line_no)`. -/
def mapAppend (m : List (String × List Nat)) (k : String) (n : Nat) :
    List (String × List Nat) :=
  if m.any (fun p => p.1 = k) then
    m.map (fun p => if p.1 = k then (p.1, p.2 ++ [n]) else p)
  else m ++ [(k, [n])]

/-- Generation failures. The first three constructors are the
`CodeGenerationError` cases of the source; `pyError` models any other
uncaught Python exception (e.g. `KeyError` from `str.format`);
`outOfFuel` models exceeding Python's recursion limit. -/
inductive GenError where
  | noRoot
  | unknownBlock (block_id : String)
  | noSection (block_id : String)
  | pyError
  | outOfFuel
deriving DecidableEq

/-- `child_indent = 1 if container.section in {SETUP, LOOP} else 0`. -/
def childIndent (s : Sect) : Nat :=
  if s = Sect.setup ∨ s = Sect.loop then 1 else 0

/-- `include.format(**context)` folded over a definition's include list,
each result passed to `_add_include` tagged with the instance id. -/
def foldIncludes (iid : String) (ctx : List (String × Option Value)) :
    List String → GenState → Option GenState
  | [], st => some st
  | inc :: rest, st =>
    match pyFormat inc ctx with
    | none => none
    | some s => foldIncludes iid ctx rest (addInclude st s (some iid))

/-- `snippet.format(**context)` folded over the function snippets, each
result passed to `_add_line(FUNCTIONS, ...)`. -/
def foldFunctions (iid : String) (ctx : List (String × Option Value)) :
    List String → GenState → Option GenState
  | [], st => some st
  | sn :: rest, st =>
    match pyFormat sn ctx with
    | none => none
    | some s => foldFunctions iid ctx rest (addLine st .functions s (some iid))

/-- The mutually recursive traversal of `_process_block` /
`_render_template`, expressed as a single fuel-indexed interpreter so that
it is structurally recursive (and hence evaluates inside the kernel).
Each constructor is one loop/call shape of the source:
`block` is a `_process_block(block, target_section, indent_level)` call;
`seqContainers` is the container loop of the no-template branch
(lines 88–91); `seqBlocks` is its inner per-child loop;
`rcontainers` is the container loop of `_render_template` (lines 99–115)
accumulating the `rendered_children` dict; `rinline` is the per-child
inline-render loop of a placeholder container (lines 108–111). -/
inductive GTask where
  | block (b : BlockInstance) (target_section : Option Sect) (indent_level : Nat)
  | seqContainers (b : BlockInstance) (cs : List BlockContainerSpec)
  | seqBlocks (l : List BlockInstance) (target_section : Option Sect) (indent_level : Nat)
  | rcontainers (b : BlockInstance) (definitionSect : Option Sect) (indent_level : Nat)
      (cs : List BlockContainerSpec) (rendered_children : List (String × String))
  | rinline (l : List BlockInstance) (definitionSect : Option Sect) (indent_level : Nat)

/-- Result of one task: `outBlock` is `_process_block`'s
`Optional[str]` return, `outDict` the `rendered_children` dict,
`outTexts` the `child_texts` list. -/
inductive GOut where
  | outBlock (rendered : Option String)
  | outUnit
  | outTexts (ts : List String)
  | outDict (d : List (String × String))

/-- The generator traversal.  Faithful transcription of
`CodeGenerator._process_block` and `CodeGenerator._render_template`;
all state changes go through `addInclude` / `addLine`. -/
def runGen (reg : Registry) : Nat → GTask → GenState →
    Except GenError (GOut × GenState)
  | 0, _, _ => .error .outOfFuel
  | Nat.succ fuel, task, st =>
    match task with
    | .block b target_section indent_level =>
      match regGet reg b.definition_id with
      | none => .error (.unknownBlock b.definition_id)
      | some definition =>
        let context := buildContext b definition
        match foldIncludes b.instance_id context definition.includes st with
        | none => .error .pyError
        | some st =>
          let st := definition.globals_snippets.foldl
            (fun st sn => addLine st .globals (genFormat sn context 0) (some b.instance_id)) st
          match foldFunctions b.instance_id context definition.functions_snippets st with
          | none => .error .pyError
          | some st =>
            let st := definition.setup_snippets.foldl
              (fun st sn => addLine st .setup (genFormat sn context 1) (some b.instance_id)) st
            if definition.template.getD "" ≠ "" then
              -- `if definition.template:` branch (lines 75-85)
              match (match definition.sect with
                     | some s => some s
                     | none => target_section) with
              | none => .error (.noSection definition.block_id)
              | some sec =>
                -- inlined `_render_template(definition, block, context, indent_level)`
                match runGen reg fuel
                    (.rcontainers b definition.sect indent_level definition.containers []) st with
                | .error e => .error e
                | .ok (.outDict rendered_children, st) =>
                  let filled := rendered_children.foldl
                    (fun acc kv => pyReplace acc ("\x7b" ++ kv.1 ++ "\x7d") kv.2)
                    (definition.template.getD "")
                  let rendered := genFormat filled context indent_level
                  let st :=
                    if rendered ≠ "" then
                      (splitlines rendered).foldl
                        (fun st line => addLine st sec line (some b.instance_id)) st
                    else st
                  .ok (.outBlock (some rendered), st)
                | .ok _ => .error .pyError
            else
              -- no-template branch: process child containers (lines 88-92)
              match runGen reg fuel (.seqContainers b definition.containers) st with
              | .error e => .error e
              | .ok (_, st) => .ok (.outBlock none, st)
    | .seqContainers b cs =>
      match cs with
      | [] => .ok (.outUnit, st)
      | c :: rest =>
        match runGen reg fuel
            (.seqBlocks (childrenGet b.children c.name) (some c.sect) (childIndent c.sect)) st with
        | .error e => .error e
        | .ok (_, st) => runGen reg fuel (.seqContainers b rest) st
    | .seqBlocks l target_section indent_level =>
      match l with
      | [] => .ok (.outUnit, st)
      | child :: rest =>
        match runGen reg fuel (.block child target_section indent_level) st with
        | .error e => .error e
        | .ok (_, st) => runGen reg fuel (.seqBlocks rest target_section indent_level) st
    | .rcontainers b definitionSect indent_level cs rendered_children =>
      match cs with
      | [] => .ok (.outDict rendered_children, st)
      | c :: rest =>
        match c.placeholder with
        | none =>
          -- container already handled as in `_process_block` (lines 100-106)
          match runGen reg fuel
              (.seqBlocks (childrenGet b.children c.name) (some c.sect) (childIndent c.sect)) st with
          | .error e => .error e
          | .ok (_, st) =>
            runGen reg fuel
              (.rcontainers b definitionSect indent_level rest
                (dictSet rendered_children c.name "")) st
        | some placeholder =>
          match runGen reg fuel
              (.rinline (childrenGet b.children c.name) definitionSect indent_level) st with
          | .error e => .error e
          | .ok (.outTexts child_texts, st) =>
            let joined := joinNL (child_texts.filter (fun t => t ≠ ""))
            let joined :=
              if joined ≠ "" then indentLines joined (indent_level + 1) else joined
            runGen reg fuel
              (.rcontainers b definitionSect indent_level rest
                (dictSet rendered_children placeholder joined)) st
          | .ok _ => .error .pyError
    | .rinline l definitionSect indent_level =>
      match l with
      | [] => .ok (.outTexts [], st)
      | child :: rest =>
        match runGen reg fuel (.block child definitionSect (indent_level + 1)) st with
        | .error e => .error e
        | .ok (.outBlock child_render, st) =>
          match runGen reg fuel (.rinline rest definitionSect indent_level) st with
          | .error e => .error e
          | .ok (.outTexts ts, st) =>
            let ts := match child_render with
              | some s => if s ≠ "" then s :: ts else ts
              | none => ts
            .ok (.outTexts ts, st)
          | .ok _ => .error .pyError
        | .ok _ => .error .pyError

/-- `_process_block` entry point. -/
def processBlock (reg : Registry) (fuel : Nat) (b : BlockInstance)
    (target_section : Option Sect) (indent_level : Nat) (st : GenState) :
    Except GenError (GOut × GenState) :=
  runGen reg fuel (.block b target_section indent_level) st

/-- One `emit`-style pass over a section buffer (`_assemble_code`,
lines 131-135 and the inline setup/loop/functions loops): append each
buffered text as one element of `lines`, increment the counter once per
element, and record the counter against the originating block id. -/
def emitList : List (String × Option String) → List String → Nat →
    List (String × List Nat) → List String × Nat × List (String × List Nat)
  | [], lines, counter, m => (lines, counter, m)
  | (text, block_id) :: rest, lines, counter, m =>
    let lines := lines ++ [text]
    let counter := counter + 1
    let m := match block_id with
      | some b => mapAppend m b counter
      | none => m
    emitList rest lines counter m

/-- The `lines` list built by `CodeGenerator._assemble_code` before the
final join/strip, together with the final counter and line mapping, and
the state after the include cache has been flushed into the includes
buffer (a real mutation of `self.section_lines` / `self._include_cache`). -/
def assembleLines (st : GenState) :
    (List String × Nat × List (String × List Nat)) × GenState :=
  -- flush `_include_cache` into the includes section buffer (lines 140-143)
  let st := { st with includesBuf := st.includesBuf ++ st.include_cache,
                      include_cache := [] }
  -- emit(INCLUDES): no header, no trailing blank
  let (lines, c, m) := emitList st.includesBuf [] 0 st.line_mapping
  -- emit(GLOBALS, "\n// ===== Globals ====="): the header is appended
  -- unconditionally (it is a non-empty string), as ONE list element that
  -- contains an embedded newline; trailing blank only if the buffer is
  -- non-empty
  let lines := lines ++ ["\n// ===== Globals ====="]
  let c := c + 1
  let (lines, c, m) := emitList st.globalsBuf lines c m
  let (lines, c) := if st.globalsBuf ≠ [] then (lines ++ [""], c + 1) else (lines, c)
  -- setup wrapper (lines 146-155)
  let lines := lines ++ ["void setup() \x7b"]
  let c := c + 1
  let (lines, c, m) :=
    if st.setupBuf ≠ [] then emitList st.setupBuf lines c m else (lines, c, m)
  let lines := lines ++ ["\x7d"]
  let c := c + 1
  let lines := lines ++ [""]
  let c := c + 1
  -- loop wrapper (lines 158-167)
  let lines := lines ++ ["void loop() \x7b"]
  let c := c + 1
  let (lines, c, m) :=
    if st.loopBuf ≠ [] then emitList st.loopBuf lines c m else (lines, c, m)
  let lines := lines ++ ["\x7d"]
  let c := c + 1
  -- functions (lines 169-176)
  let (lines, c, m) :=
    if st.functionsBuf ≠ [] then
      emitList st.functionsBuf (lines ++ [""]) (c + 1) m
    else (lines, c, m)
  ((lines, c, m), st)

/-- `CodeGenerator._assemble_code`: join the lines, strip, append exactly
one newline; returns the final code and the mutated generator state. -/
def assembleCode (st : GenState) : String × GenState :=
  let ((lines, _, m), st) := assembleLines st
  (pyStrip (joinNL lines) ++ "\n", { st with line_mapping := m })

/-- Per-section text view (`_sections_as_text`), taken after assembly. -/
structure SectionsText where
  includes : List String
  globals : List String
  setup : List String
  loop : List String
  functions : List String
deriving DecidableEq

def sectionsAsText (st : GenState) : SectionsText :=
  { includes := st.includesBuf.map (fun p => p.1),
    globals := st.globalsBuf.map (fun p => p.1),
    setup := st.setupBuf.map (fun p => p.1),
    loop := st.loopBuf.map (fun p => p.1),
    functions := st.functionsBuf.map (fun p => p.1) }

/-- `SketchBundle`. -/
structure SketchBundle where
  code : String
  mapping : List (String × List Nat)
  sections : SectionsText
deriving DecidableEq

/-- Fuel standing in for Python's recursion limit
(`sys.getrecursionlimit()` defaults to 1000; each nesting level of the
generator costs a bounded number of frames). -/
def GEN_FUEL : Nat := 3000

/-- `CodeGenerator.build`, over an explicit generator state (the state is
created in `CodeGenerator.__init__`, NOT in `build`; threading it makes
that distinction visible: a second `build` on the same generator starts
from the state the first call left behind). -/
def CodeGenerator.build (reg : Registry) (program : ProgramNode)
    (st : GenState) : Except GenError (SketchBundle × GenState) :=
  match program.root with
  | none => .error .noRoot
  | some root =>
    let st := addInclude st "#include <Arduino.h>" none
    match processBlock reg GEN_FUEL root none 0 st with
    | .error e => .error e
    | .ok (_, st) =>
      let (code, st) := assembleCode st
      .ok ({ code := code, mapping := st.line_mapping,
             sections := sectionsAsText st }, st)

/-- `build_sketch`: constructs a fresh `CodeGenerator` (fresh state) per
call. The board is stored by the generator but never used by it. -/
def build_sketch (program : ProgramNode) (reg : Registry)
    (board : BoardProfile) : Except GenError SketchBundle :=
  (CodeGenerator.build reg program initGenState).map (fun r => r.1)

/-! ### Validator (`app/core/validator/validator.py`) -/

/-- `ValidationError` diagnostics. -/
structure ValidationError where
  message : String
  block_id : Option String := none
deriving DecidableEq

/-- Mutable state of `ProgramValidator.validate`: the `errors` list and
the `used_sections` set (insertion list with set semantics). -/
structure VState where
  errors : List ValidationError
  used : List Sect
deriving DecidableEq

/-- `set.add`. -/
def setAdd (l : List Sect) (s : Sect) : List Sect :=
  if s ∈ l then l else l ++ [s]

/-- `ProgramValidator._validate_digital_pin`: diagnostics this check
appends for one value. -/
def validateDigitalPin (board : BoardProfile) (value : Value) (iid : String) :
    List ValidationError :=
  let s := pyStr value
  let pinOpt :=
    if pyStartsWith s "A" then pyIntOfString (pyReplace s "A" "")
    else pyInt value
  match pinOpt with
  | none => [{ message := "Неверный формат пина", block_id := some iid }]
  | some pin =>
    if pin ∈ board.pins.digital then []
    else [{ message := "Пин D" ++ toString pin ++ " недоступен для платы " ++ board.name,
            block_id := some iid }]

/-- `ProgramValidator._ensure_int`. -/
def ensureInt (value : Value) (name : String) (iid : String) :
    List ValidationError :=
  match pyInt value with
  | some _ => []
  | none => [{ message := "Параметр '" ++ name ++ "' должен быть числом",
               block_id := some iid }]

/-- Call shapes of the recursive `walk` closure inside
`ProgramValidator.validate`: a single block visit, the loop over a
block's containers, and the loop over one container's children. -/
inductive VTask where
  | block (b : BlockInstance)
  | conts (b : BlockInstance) (cs : List BlockContainerSpec)
  | blocks (l : List BlockInstance)

/-- The validator's depth-first `walk`, fuel-indexed like the generator
(exhausted fuel leaves the state unchanged, standing in for Python's
recursion limit). -/
def vrun (reg : Registry) (board : BoardProfile) : Nat → VTask → VState → VState
  | 0, _, st => st
  | Nat.succ fuel, task, st =>
    match task with
    | .block b =>
      match regGet reg b.definition_id with
      | none =>
        { st with errors := st.errors ++
            [{ message := "Неизвестный тип блока", block_id := some b.instance_id }] }
      | some definition =>
        let used := match definition.sect with
          | some s => setAdd st.used s
          | none => st.used
        let used := if definition.setup_snippets ≠ [] then setAdd used .setup else used
        let used := if definition.globals_snippets ≠ [] then setAdd used .globals else used
        let errors := definition.parameters.foldl
          (fun errors p =>
            match (match alookup b.values p.name with
                   | some v => some v
                   | none => p.default) with
            | none => errors ++
                [{ message := "Не задан параметр '" ++ p.name ++ "'",
                   block_id := some b.instance_id }]
            | some value =>
              if p.type = "digital_pin" then
                errors ++ validateDigitalPin board value b.instance_id
              else if p.type = "int" then
                errors ++ ensureInt value p.name b.instance_id
              else errors)
          st.errors
        vrun reg board fuel (.conts b definition.containers)
          { errors := errors, used := used }
    | .conts b cs =>
      match cs with
      | [] => st
      | c :: rest =>
        let st := vrun reg board fuel (.blocks (childrenGet b.children c.name)) st
        vrun reg board fuel (.conts b rest) st
    | .blocks l =>
      match l with
      | [] => st
      | child :: rest =>
        let st := vrun reg board fuel (.block child) st
        vrun reg board fuel (.blocks rest) st

def VAL_FUEL : Nat := 3000

/-- The full `walk(program.root)` call of `validate`. -/
def validatorWalk (reg : Registry) (board : BoardProfile)
    (root : BlockInstance) : VState :=
  vrun reg board VAL_FUEL (.block root) { errors := [], used := [] }

/-- `ProgramValidator.validate`.  After the walk:
`missing_sections = encountered - used - {INCLUDES, GLOBALS, FUNCTIONS}`
is a subset of `{SETUP, LOOP}`; iterated sorted by `section.value`
(`"loop" < "setup"`), and the `section in {SETUP, LOOP}` filter of the
source is vacuously true on it. -/
def validate (reg : Registry) (board : BoardProfile) (program : ProgramNode) :
    List ValidationError :=
  match program.root with
  | none => [{ message := "Проект не содержит корневого блока EV_START" }]
  | some root =>
    let st := validatorWalk reg board root
    let errors := st.errors ++
      (if Sect.loop ∈ st.used then []
       else [{ message := "В цикле loop() отсутствуют исполняемые блоки" }])
    let missing := [Sect.loop, Sect.setup].filter (fun s => s ∉ st.used)
    errors ++ missing.map
      (fun s => { message := "Секция '" ++ s.value ++ "' пуста" })

/-- `validate_program` wrapper. -/
def validate_program (program : ProgramNode) (reg : Registry)
    (board : BoardProfile) : List ValidationError :=
  validate reg board program

/-! ### Fallback block catalog (`blocks_loader._fallback_registry_payload`,
as turned into definitions by `BlockRegistry.from_mapping`) -/

def EV_START : BlockDefinition :=
  { block_id := "EV_START", name := "Старт", category := "events",
    kind := "event",
    containers := [{ name := "setup", sect := .setup },
                   { name := "loop", sect := .loop }] }

def LS_LED_ON : BlockDefinition :=
  { block_id := "LS_LED_ON", name := "Включить светодиод", category := "logic",
    kind := "statement", sect := some .loop,
    template := some "digitalWrite(\x7bpin\x7d, HIGH);",
    parameters := [{ name := "pin", type := "int", default := some (.vInt 13) }],
    setup_snippets := ["pinMode(\x7bpin\x7d, OUTPUT);"] }

def TM_DELAY : BlockDefinition :=
  { block_id := "TM_DELAY", name := "Задержка", category := "timing",
    kind := "statement", sect := some .loop,
    template := some "delay(\x7bms\x7d);",
    parameters := [{ name := "ms", type := "int", default := some (.vInt 1000) }] }

def CTL_IF : BlockDefinition :=
  { block_id := "CTL_IF", name := "Если", category := "logic",
    kind := "statement", sect := some .loop,
    template := some "if (\x7bcondition\x7d) \x7b\n\x7bthen\x7d\n\x7d",
    parameters := [{ name := "condition", type := "string",
                     default := some (.vStr "true") }],
    containers := [{ name := "then", sect := .loop, placeholder := some "then" }] }

def fallbackRegistry : Registry :=
  [("EV_START", EV_START), ("LS_LED_ON", LS_LED_ON),
   ("TM_DELAY", TM_DELAY), ("CTL_IF", CTL_IF)]

/-- Arduino Uno profile (pin capabilities as in the repository's board
data; the generator never reads the board, and the programs below have no
`digital_pin` parameters, so only its presence matters). -/
def unoBoard : BoardProfile :=
  { board_id := "uno", name := "Arduino Uno", fqbn := "arduino:avr:uno",
    upload_command := "", upload_tool := "avrdude", upload_speed := 115200,
    pins := { digital := [0, 1, 2, 3, 4, 5, 6, 7, 8, 9, 10, 11, 12, 13],
              pwm := [3, 5, 6, 9, 10, 11], analog := ["A0", "A1", "A2", "A3", "A4", "A5"] } }

/-! ### Concrete programs used by the claims -/

/-- Root with empty setup/loop containers. -/
def startOnly : BlockInstance :=
  .mk "start" "EV_START" [] [("setup", []), ("loop", [])]

def progStartOnly : ProgramNode := { board_id := "uno", root := some startOnly }

/-- Scenario A: LED-on (pin 13) then delay (500 ms) in the loop. -/
def progScenarioA : ProgramNode :=
  { board_id := "uno",
    root := some (.mk "start" "EV_START" []
      [("setup", []),
       ("loop",
        [.mk "led_on" "LS_LED_ON" [("pin", .vInt 13)] [],
         .mk "delay_1" "TM_DELAY" [("ms", .vInt 500)] []])]) }

/-- Scenario B: an if-block (condition `digitalRead(2) == LOW`) whose
"then" container holds an LED-on block (pin 12). -/
def progScenarioB : ProgramNode :=
  { board_id := "uno",
    root := some (.mk "start" "EV_START" []
      [("setup", []),
       ("loop",
        [.mk "if1" "CTL_IF" [("condition", .vStr "digitalRead(2) == LOW")]
          [("then", [.mk "led" "LS_LED_ON" [("pin", .vInt 12)] []])]])]) }

/-- Program with no root block. -/
def progNoRoot : ProgramNode := { board_id := "uno", root := none }

/-- A registry whose single (root-capable) block declares one include
directive that is the empty string. -/
def regEmptyInclude : Registry :=
  [("R", { block_id := "R", name := "R", category := "events", kind := "event",
           includes := [""] })]

def progR : ProgramNode :=
  { board_id := "uno", root := some (.mk "r1" "R" [] []) }

/-- All entries of the four `_add_line`-fed section buffers (globals,
setup, loop, functions) carry non-empty text. -/
def buffersNonEmptyB (st : GenState) : Bool :=
  st.globalsBuf.all (fun p => !(p.1 == "")) &&
  st.setupBuf.all (fun p => !(p.1 == "")) &&
  st.loopBuf.all (fun p => !(p.1 == "")) &&
  st.functionsBuf.all (fun p => !(p.1 == ""))

/-- The bundle `build_sketch` produces for `progStartOnly`. -/
def bundleStartOnly : SketchBundle :=
  { code := "#include <Arduino.h>\n\n// ===== Globals =====\nvoid setup() \x7b\n\x7d\n\nvoid loop() \x7b\n\x7d\n",
    mapping := [],
    sections := { includes := ["#include <Arduino.h>"], globals := [],
                  setup := [], loop := [], functions := [] } }

/-! ### Helper lemmas -/

theorem foldl_preserve {α σ : Type} (P : σ → Prop) (f : σ → α → σ)
    (hf : ∀ s a, P s → P (f s a)) :
    ∀ (l : List α) (s : σ), P s → P (l.foldl f s)
  | [], _, hs => hs
  | a :: l, s, hs => foldl_preserve P f hf l (f s a) (hf s a hs)

theorem addLine_keeps (st : GenState) (s : Sect) (text : String)
    (bid : Option String) (h : buffersNonEmptyB st = true) :
    buffersNonEmptyB (addLine st s text bid) = true := by
  unfold addLine
  split
  · exact h
  · rename_i hne
    cases s <;>
      simp_all [buffersNonEmptyB, GenState.pushBuf, List.all_append] <;>
      assumption

theorem addInclude_keeps (st : GenState) (inc : String) (bid : Option String)
    (h : buffersNonEmptyB st = true) :
    buffersNonEmptyB (addInclude st inc bid) = true := by
  unfold addInclude
  dsimp only
  split
  · exact h
  · simpa [buffersNonEmptyB] using h

theorem foldIncludes_keeps (iid : String) (ctx : List (String × Option Value)) :
    ∀ (l : List String) (st st' : GenState),
      foldIncludes iid ctx l st = some st' →
      buffersNonEmptyB st = true → buffersNonEmptyB st' = true := by
  intro l
  induction l with
  | nil =>
    intro st st' h hst
    simp only [foldIncludes, Option.some.injEq] at h
    exact h ▸ hst
  | cons a l ih =>
    intro st st' h hst
    simp only [foldIncludes] at h
    split at h
    · exact absurd h (by simp)
    · exact ih _ _ h (addInclude_keeps _ _ _ hst)

theorem foldFunctions_keeps (iid : String) (ctx : List (String × Option Value)) :
    ∀ (l : List String) (st st' : GenState),
      foldFunctions iid ctx l st = some st' →
      buffersNonEmptyB st = true → buffersNonEmptyB st' = true := by
  intro l
  induction l with
  | nil =>
    intro st st' h hst
    simp only [foldFunctions, Option.some.injEq] at h
    exact h ▸ hst
  | cons a l ih =>
    intro st st' h hst
    simp only [foldFunctions] at h
    split at h
    · exact absurd h (by simp)
    · exact ih _ _ h (addLine_keeps _ _ _ _ hst)

theorem runGen_keeps (reg : Registry) :
    ∀ (fuel : Nat) (t : GTask) (st : GenState) (out : GOut) (st' : GenState),
      runGen reg fuel t st = .ok (out, st') →
      buffersNonEmptyB st = true → buffersNonEmptyB st' = true := by
  intro fuel
  induction fuel with
  | zero => intro t st out st' h; simp [runGen] at h
  | succ fuel ih =>
    intro t st out st' h hst
    cases t with
    | block b target_section indent_level =>
      simp only [runGen] at h
      split at h
      · exact absurd h (by simp)
      · rename_i defn hdef
        split at h
        · exact absurd h (by simp)
        · rename_i st1 hfold
          have h1 : buffersNonEmptyB st1 = true :=
            foldIncludes_keeps _ _ _ _ _ hfold hst
          have h2 := foldl_preserve (fun s => buffersNonEmptyB s = true)
            (fun s sn => addLine s Sect.globals
              (genFormat sn (buildContext b defn) 0) (some b.instance_id))
            (fun s a hs => addLine_keeps _ _ _ _ hs)
            defn.globals_snippets st1 h1
          split at h
          · exact absurd h (by simp)
          · rename_i st2 hfold2
            have h3 : buffersNonEmptyB st2 = true :=
              foldFunctions_keeps _ _ _ _ _ hfold2 h2
            have h4 := foldl_preserve (fun s => buffersNonEmptyB s = true)
              (fun s sn => addLine s Sect.setup
                (genFormat sn (buildContext b defn) 1) (some b.instance_id))
              (fun s a hs => addLine_keeps _ _ _ _ hs)
              defn.setup_snippets st2 h3
            split at h
            · -- template branch
              split at h
              · exact absurd h (by simp)
              · rename_i sec hsec
                split at h
                · exact absurd h (by simp)
                · rename_i rendered_children st3 hrun
                  have h5 := ih _ _ _ _ hrun h4
                  simp only [Except.ok.injEq, Prod.mk.injEq] at h
                  obtain ⟨-, hst'⟩ := h
                  subst hst'
                  split
                  · exact foldl_preserve (fun s => buffersNonEmptyB s = true)
                      (fun s line => addLine s sec line (some b.instance_id))
                      (fun s a hs => addLine_keeps _ _ _ _ hs) _ _ h5
                  · exact h5
                · exact absurd h (by simp)
            · -- no-template branch
              split at h
              · exact absurd h (by simp)
              · rename_i r st3 hrun
                have h5 := ih _ _ _ _ hrun h4
                simp only [Except.ok.injEq, Prod.mk.injEq] at h
                obtain ⟨-, hst'⟩ := h
                subst hst'
                exact h5
    | seqContainers b cs =>
      simp only [runGen] at h
      split at h
      · simp only [Except.ok.injEq, Prod.mk.injEq] at h
        obtain ⟨-, hst'⟩ := h
        subst hst'
        exact hst
      · rename_i c rest
        split at h
        · exact absurd h (by simp)
        · rename_i r st2 hrun
          exact ih _ _ _ _ h (ih _ _ _ _ hrun hst)
    | seqBlocks l target_section indent_level =>
      simp only [runGen] at h
      split at h
      · simp only [Except.ok.injEq, Prod.mk.injEq] at h
        obtain ⟨-, hst'⟩ := h
        subst hst'
        exact hst
      · rename_i child rest
        split at h
        · exact absurd h (by simp)
        · rename_i r st2 hrun
          exact ih _ _ _ _ h (ih _ _ _ _ hrun hst)
    | rcontainers b definitionSect indent_level cs rendered_children =>
      simp only [runGen] at h
      split at h
      · simp only [Except.ok.injEq, Prod.mk.injEq] at h
        obtain ⟨-, hst'⟩ := h
        subst hst'
        exact hst
      · rename_i c rest
        split at h
        · -- placeholder-free container
          split at h
          · exact absurd h (by simp)
          · rename_i r st2 hrun
            exact ih _ _ _ _ h (ih _ _ _ _ hrun hst)
        · -- placeholder container
          split at h
          · exact absurd h (by simp)
          · rename_i child_texts st2 hrun
            exact ih _ _ _ _ h (ih _ _ _ _ hrun hst)
          · exact absurd h (by simp)
    | rinline l definitionSect indent_level =>
      simp only [runGen] at h
      split at h
      · simp only [Except.ok.injEq, Prod.mk.injEq] at h
        obtain ⟨-, hst'⟩ := h
        subst hst'
        exact hst
      · rename_i child rest
        split at h
        · exact absurd h (by simp)
        · rename_i child_render st2 hrun
          split at h
          · exact absurd h (by simp)
          · rename_i ts st3 hrun2
            have h5 := ih _ _ _ _ hrun2 (ih _ _ _ _ hrun hst)
            simp only [Except.ok.injEq, Prod.mk.injEq] at h
            obtain ⟨-, hst'⟩ := h
            subst hst'
            exact h5
          · exact absurd h (by simp)
        · exact absurd h (by simp)

theorem emitList_fst_prefix :
    ∀ (buf : List (String × Option String)) (lines : List String)
      (c : Nat) (m : List (String × List Nat)),
      ∃ tail, (emitList buf lines c m).1 = lines ++ tail := by
  intro buf
  induction buf with
  | nil => intro lines c m; exact ⟨[], by simp [emitList]⟩
  | cons a rest ih =>
    intro lines c m
    obtain ⟨text, bid⟩ := a
    obtain ⟨t, ht⟩ := ih (lines ++ [text]) (c + 1)
      (match bid with
       | some b => mapAppend m b (c + 1)
       | none => m)
    exact ⟨[text] ++ t, by simp [emitList, ht]⟩

theorem mem_emitList (x : String) (buf : List (String × Option String))
    (lines : List String) (c : Nat) (m : List (String × List Nat))
    (h : x ∈ lines) : x ∈ (emitList buf lines c m).1 := by
  obtain ⟨t, ht⟩ := emitList_fst_prefix buf lines c m
  rw [ht]
  exact List.mem_append_left _ h

theorem assembleCode_keeps_buffers (st : GenState) :
    ((assembleCode st).2).globalsBuf = st.globalsBuf ∧
    ((assembleCode st).2).setupBuf = st.setupBuf ∧
    ((assembleCode st).2).loopBuf = st.loopBuf ∧
    ((assembleCode st).2).functionsBuf = st.functionsBuf := by
  unfold assembleCode assembleLines
  dsimp only
  exact ⟨rfl, rfl, rfl, rfl⟩

theorem all_nonempty_map (l : List (String × Option String))
    (h : l.all (fun p => !(p.1 == "")) = true) :
    ∀ line ∈ l.map (fun p => p.1), line ≠ "" := by
  intro line hline
  obtain ⟨p, hp, rfl⟩ := List.mem_map.mp hline
  have := List.all_eq_true.mp h p hp
  simpa using this

/-! ### Claim theorems -/

/-- C1 (code bug): generation does NOT render a placeholder-container
child purely inline — `_process_block` also commits the child's rendered
lines to its section buffer (codegen.py line 83-84 runs even when the call
came from `_render_template`'s placeholder path), so in scenario B the
loop section holds the LED-on block's rendered text twice: once committed
directly by the child, once inside the parent if-template. -/
theorem scenarioB_placeholder_child_committed_twice :
    (build_sketch progScenarioB fallbackRegistry unoBoard).map
      (fun b => b.sections.loop) =
    .ok ["    digitalWrite(12, HIGH);",
         "  if (digitalRead(2) == LOW) \x7b",
         "          digitalWrite(12, HIGH);",
         "  \x7d"] := by
  rfl

/-- C2 (code bug): the globals header is appended to `lines` as the single
element `"\n// ===== Globals ====="`, incrementing the running counter
once while contributing two physical lines, so every mapping entry after
it is off by one: in scenario A the mapping records lines 4 and 8 for
`led_on` and 9 for `delay_1`, but the 1-indexed physical lines of the
final text holding their code are 5, 9 and 10. -/
theorem scenarioA_mapping_offset_from_physical_lines :
    (build_sketch progScenarioA fallbackRegistry unoBoard).map
      (fun b => (b.mapping, splitlines b.code)) =
    .ok ([("led_on", [4, 8]), ("delay_1", [9])],
         ["#include <Arduino.h>", "", "// ===== Globals =====",
          "void setup() \x7b", "  pinMode(13, OUTPUT);", "\x7d", "",
          "void loop() \x7b", "  digitalWrite(13, HIGH);", "  delay(500);",
          "\x7d"]) := by
  rfl

/-- C3 counterexample: the accumulating state lives on the generator
object (`__init__`), not in `build`; invoking the `build` method twice on
one generator makes the second call start from the first call's final
state and produce different code (the baseline include is emitted twice,
re-cached after the assembly pass cleared the cache). -/
theorem build_method_twice_not_idempotent :
    ((CodeGenerator.build fallbackRegistry progStartOnly initGenState).bind
      (fun r1 => (CodeGenerator.build fallbackRegistry progStartOnly r1.2).map
        (fun r2 => (r1.1.code, r2.1.code))) =
      .ok ("#include <Arduino.h>\n\n// ===== Globals =====\nvoid setup() \x7b\n\x7d\n\nvoid loop() \x7b\n\x7d\n",
           "#include <Arduino.h>\n#include <Arduino.h>\n\n// ===== Globals =====\nvoid setup() \x7b\n\x7d\n\nvoid loop() \x7b\n\x7d\n")) ∧
    ("#include <Arduino.h>\n\n// ===== Globals =====\nvoid setup() \x7b\n\x7d\n\nvoid loop() \x7b\n\x7d\n" : String) ≠
      "#include <Arduino.h>\n#include <Arduino.h>\n\n// ===== Globals =====\nvoid setup() \x7b\n\x7d\n\nvoid loop() \x7b\n\x7d\n" := by
  exact ⟨rfl, by decide⟩

/-- C3 amended: `build_sketch` constructs a fresh generator (fresh state)
on every call, so two `build_sketch` invocations on the same program,
catalog and board give byte-identical code and identical mappings; only
reusing one generator object across `build` calls breaks this. -/
theorem build_sketch_repeat_identical (reg : Registry) (board : BoardProfile)
    (p : ProgramNode) (b1 b2 : SketchBundle)
    (h1 : build_sketch p reg board = .ok b1)
    (h2 : build_sketch p reg board = .ok b2) :
    b1.code = b2.code ∧ b1.mapping = b2.mapping := by
  rw [h1] at h2
  injection h2 with h
  exact ⟨congrArg SketchBundle.code h, congrArg SketchBundle.mapping h⟩

/-- Witness for `build_sketch_repeat_identical` at `progStartOnly`. -/
theorem build_sketch_repeat_identical_witness :
    bundleStartOnly.code = bundleStartOnly.code ∧
    bundleStartOnly.mapping = bundleStartOnly.mapping :=
  build_sketch_repeat_identical fallbackRegistry unoBoard progStartOnly
    bundleStartOnly bundleStartOnly rfl rfl

/-- C4 counterexample: `_format` iterates `str.replace` over the context
keys in order, so a substituted value that contains a later key's token is
re-expanded instead of appearing verbatim: with context
`a ↦ "{b}", b ↦ "1"` the template `"{a}ccc"` renders to `"1ccc"`, not to
`"{b}ccc"`. -/
theorem format_reexpands_substituted_value :
    genFormat "\x7ba\x7dccc"
      [("a", some (Value.vStr "\x7bb\x7d")), ("b", some (Value.vStr "1"))] 0 =
      "1ccc" ∧
    genFormat "\x7ba\x7dccc"
      [("a", some (Value.vStr "\x7bb\x7d")), ("b", some (Value.vStr "1"))] 0 ≠
      "\x7bb\x7dccc" := by
  exact ⟨rfl, by decide⟩

/-- C4 amended: substitution is one `str.replace` pass per context entry
in insertion order; a substituted value containing a LATER key's token is
re-expanded by that key's pass, while under the reversed order the same
value survives verbatim. -/
theorem format_substitution_order_dependent :
    genFormat "\x7ba\x7d"
      [("a", some (Value.vStr "\x7bb\x7d")), ("b", some (Value.vStr "X"))] 0 = "X" ∧
    genFormat "\x7ba\x7d"
      [("b", some (Value.vStr "X")), ("a", some (Value.vStr "\x7bb\x7d"))] 0 = "\x7bb\x7d" := by
  exact ⟨rfl, rfl⟩

/-- C5 (code bug): for scenario B the generated sketch does NOT put
`digitalWrite(12, HIGH);` one indent unit below the if-line: the then
branch is indented three times over (by the child's own render at level 2,
by `_indent_lines(joined, indent_level + 1)`, and by the parent template's
final `_format` at level 1), landing at ten spaces against the if-line's
two, and a duplicate copy of the line precedes the if. -/
theorem scenarioB_generated_code :
    (build_sketch progScenarioB fallbackRegistry unoBoard).map
      (fun b => b.code) =
    .ok "#include <Arduino.h>\n\n// ===== Globals =====\nvoid setup() \x7b\n  pinMode(12, OUTPUT);\n\x7d\n\nvoid loop() \x7b\n    digitalWrite(12, HIGH);\n  if (digitalRead(2) == LOW) \x7b\n          digitalWrite(12, HIGH);\n  \x7d\n\x7d\n" := by
  rfl

/-- C6 counterexample: for a program with a root but an empty loop the
validator emits the "empty section" advisory for the loop section as well
(the `missing_sections` filter keeps LOOP), alongside the dedicated
loop-is-empty diagnostic — contradicting "only a section other than loop
can receive the advisory". -/
theorem empty_loop_gets_empty_section_advisory :
    validate fallbackRegistry unoBoard progStartOnly =
      [{ message := "В цикле loop() отсутствуют исполняемые блоки" },
       { message := "Секция 'loop' пуста" },
       { message := "Секция 'setup' пуста" }] ∧
    ({ message := "Секция 'loop' пуста" } : ValidationError) ∈
      validate fallbackRegistry unoBoard progStartOnly := by
  exact ⟨rfl, by decide⟩

/-- C6 amended: if the walk never marks the loop section used, `validate`
appends the loop-is-empty diagnostic AND the "empty section" advisory for
the loop itself, followed by the advisory for setup when setup is also
unpopulated (advisories ordered by section name). -/
theorem validate_unpopulated_loop_diagnostics (reg : Registry)
    (board : BoardProfile) (p : ProgramNode) (root : BlockInstance)
    (hroot : p.root = some root)
    (hloop : Sect.loop ∉ (validatorWalk reg board root).used) :
    validate reg board p =
      (validatorWalk reg board root).errors ++
      ([{ message := "В цикле loop() отсутствуют исполняемые блоки" },
        { message := "Секция 'loop' пуста" }] ++
       (if Sect.setup ∈ (validatorWalk reg board root).used then []
        else [{ message := "Секция 'setup' пуста" }])) := by
  unfold validate
  rw [hroot]
  by_cases hs : Sect.setup ∈ (validatorWalk reg board root).used <;>
    simp [hloop, hs, Sect.value]

/-- Witness for `validate_unpopulated_loop_diagnostics` at the concrete
empty-loop program. -/
theorem validate_unpopulated_loop_diagnostics_witness :
    validate fallbackRegistry unoBoard progStartOnly =
      (validatorWalk fallbackRegistry unoBoard startOnly).errors ++
      ([{ message := "В цикле loop() отсутствуют исполняемые блоки" },
        { message := "Секция 'loop' пуста" }] ++
       (if Sect.setup ∈ (validatorWalk fallbackRegistry unoBoard startOnly).used then []
        else [{ message := "Секция 'setup' пуста" }])) :=
  validate_unpopulated_loop_diagnostics fallbackRegistry unoBoard
    progStartOnly startOnly rfl (by decide)

/-- C7: a program without a root yields exactly one validation diagnostic
citing the missing entry block (no traversal happens), and generation
fails with a `CodeGenerationError` (no bundle is produced), both through
the `build` method and through `build_sketch`. -/
theorem no_root_one_diagnostic_and_build_error (reg : Registry)
    (board : BoardProfile) (p : ProgramNode) (st : GenState)
    (h : p.root = none) :
    validate reg board p =
      [{ message := "Проект не содержит корневого блока EV_START" }] ∧
    CodeGenerator.build reg p st = .error .noRoot ∧
    build_sketch p reg board = .error .noRoot := by
  refine ⟨?_, ?_, ?_⟩
  · unfold validate
    rw [h]
  · unfold CodeGenerator.build
    rw [h]
  · unfold build_sketch CodeGenerator.build
    rw [h]
    rfl

/-- Witness for `no_root_one_diagnostic_and_build_error`. -/
theorem no_root_one_diagnostic_and_build_error_witness :
    validate fallbackRegistry unoBoard progNoRoot =
      [{ message := "Проект не содержит корневого блока EV_START" }] ∧
    CodeGenerator.build fallbackRegistry progNoRoot initGenState = .error .noRoot ∧
    build_sketch progNoRoot fallbackRegistry unoBoard = .error .noRoot :=
  no_root_one_diagnostic_and_build_error fallbackRegistry unoBoard
    progNoRoot initGenState rfl

/-- C8: visiting a block whose definition id is not in the catalog makes
the validator walk append exactly one "unknown block type" diagnostic
carrying the instance id, leaving the used-section set untouched and never
descending into the children, while the generator raises
`CodeGenerationError` immediately on that block. -/
theorem unknown_definition_diagnostic_and_raise (reg : Registry)
    (board : BoardProfile) (b : BlockInstance) (st : VState) (gst : GenState)
    (target_section : Option Sect) (indent_level fuel : Nat)
    (hdef : regGet reg b.definition_id = none) (hfuel : fuel ≠ 0) :
    vrun reg board fuel (.block b) st =
      { st with errors := st.errors ++
          [{ message := "Неизвестный тип блока", block_id := some b.instance_id }] } ∧
    processBlock reg fuel b target_section indent_level gst =
      .error (.unknownBlock b.definition_id) := by
  obtain ⟨f, rfl⟩ := Nat.exists_eq_succ_of_ne_zero hfuel
  constructor
  · simp only [vrun, hdef]
  · unfold processBlock
    simp only [runGen, hdef]

/-- Witness for `unknown_definition_diagnostic_and_raise` at a concrete
unknown block id. -/
theorem unknown_definition_diagnostic_and_raise_witness :
    vrun fallbackRegistry unoBoard 1 (.block (.mk "x1" "NOPE" [] [])) { errors := [], used := [] } =
      { errors := [{ message := "Неизвестный тип блока", block_id := some "x1" }],
        used := [] } ∧
    processBlock fallbackRegistry 1 (.mk "x1" "NOPE" [] []) none 0 initGenState =
      .error (.unknownBlock "NOPE") :=
  unknown_definition_diagnostic_and_raise fallbackRegistry unoBoard
    (.mk "x1" "NOPE" [] []) { errors := [], used := [] } initGenState none 0 1
    (by decide) (by decide)

/-- C9 counterexample: a program contributing no globals snippets still
gets the `"// ===== Globals ====="` header in its output (the header is
passed unconditionally to `emit`), refuting "header iff globals
non-empty". -/
theorem globals_header_despite_empty_globals :
    (build_sketch progStartOnly fallbackRegistry unoBoard).map
      (fun b => (b.sections.globals, splitlines b.code)) =
      .ok ([], ["#include <Arduino.h>", "", "// ===== Globals =====",
                "void setup() \x7b", "\x7d", "", "void loop() \x7b", "\x7d"]) ∧
    "// ===== Globals =====" ∈
      ["#include <Arduino.h>", "", "// ===== Globals =====",
       "void setup() \x7b", "\x7d", "", "void loop() \x7b", "\x7d"] := by
  exact ⟨rfl, by decide⟩

set_option maxRecDepth 4000

/-- C9 amended: `_assemble_code` emits the globals header element
unconditionally — for every generator state it is a member of the
assembled line list; only the blank line after the globals block is
conditional on the buffer being non-empty. -/
theorem globals_header_always_emitted (st : GenState) :
    "\n// ===== Globals =====" ∈ ((assembleLines st).1).1 := by
  unfold assembleLines
  dsimp only
  repeat
    first
      | exact mem_emitList _ _ _ _ _
          (List.mem_append_right _ (List.mem_singleton_self _))
      | exact List.mem_append_right _ (List.mem_singleton_self _)
      | split
      | apply mem_emitList
      | apply List.mem_append_left

/-- C10 counterexample: an include directive that formats to the empty
string is cached by `_add_include` and flushed into the includes section
buffer, so the returned sections map contains an empty line — refuting
"every pair stored in any section buffer has non-empty text". -/
theorem empty_include_reaches_sections :
    (build_sketch progR regEmptyInclude unoBoard).map
      (fun b => b.sections.includes) = .ok ["#include <Arduino.h>", ""] ∧
    ("" : String) ∈ ["#include <Arduino.h>", ""] := by
  exact ⟨rfl, by decide⟩

/-- C10 amended: every line committed through `_add_line` — everything in
the globals, setup, loop and functions sections of a successful build —
is non-empty (template lines and snippets rendering empty are dropped);
only the includes section, fed by the include cache, can hold empty text. -/
theorem build_nonempty_section_lines (reg : Registry) (board : BoardProfile)
    (p : ProgramNode) (bundle : SketchBundle)
    (h : build_sketch p reg board = .ok bundle) :
    (∀ line ∈ bundle.sections.globals, line ≠ "") ∧
    (∀ line ∈ bundle.sections.setup, line ≠ "") ∧
    (∀ line ∈ bundle.sections.loop, line ≠ "") ∧
    (∀ line ∈ bundle.sections.functions, line ≠ "") := by
  unfold build_sketch CodeGenerator.build at h
  cases hroot : p.root with
  | none =>
    rw [hroot] at h
    exact absurd h (by simp [Except.map])
  | some root =>
    rw [hroot] at h
    dsimp only at h
    cases hrun : processBlock reg GEN_FUEL root none 0
        (addInclude initGenState "#include <Arduino.h>" none) with
    | error e =>
      rw [hrun] at h
      exact absurd h (by simp [Except.map])
    | ok pr =>
      obtain ⟨r, st1⟩ := pr
      rw [hrun] at h
      have hinv : buffersNonEmptyB
          (addInclude initGenState "#include <Arduino.h>" none) = true :=
        addInclude_keeps _ _ _ rfl
      have h1 : buffersNonEmptyB st1 = true :=
        runGen_keeps reg _ _ _ _ _ hrun hinv
      simp only [Except.map, Except.ok.injEq] at h
      obtain ⟨hg, hs⟩ := assembleCode_keeps_buffers st1
      obtain ⟨hsu, hlo, hfu⟩ := hs
      subst h
      simp only [buffersNonEmptyB, Bool.and_eq_true] at h1
      refine ⟨?_, ?_, ?_, ?_⟩ <;>
        simp only [sectionsAsText, hg, hsu, hlo, hfu] <;>
        apply all_nonempty_map <;> tauto

/-- Witness for `globals_header_always_emitted` at the fresh state. -/
theorem globals_header_always_emitted_witness :
    "\n// ===== Globals =====" ∈ ((assembleLines initGenState).1).1 :=
  globals_header_always_emitted initGenState

/-- Witness for `build_nonempty_section_lines` at `progStartOnly`. -/
theorem build_nonempty_section_lines_witness :
    (∀ line ∈ bundleStartOnly.sections.globals, line ≠ "") ∧
    (∀ line ∈ bundleStartOnly.sections.setup, line ≠ "") ∧
    (∀ line ∈ bundleStartOnly.sections.loop, line ≠ "") ∧
    (∀ line ∈ bundleStartOnly.sections.functions, line ≠ "") :=
  build_nonempty_section_lines fallbackRegistry unoBoard progStartOnly
    bundleStartOnly rfl
